import Mathlib

/-!
Verification of the sampling-and-windowing engine of `venv_monitor`
(`src/monitor.py` and `src/monitor_graph.py`), shallowly embedded.

Python floats are idealized as `ℚ` except where NaN and the infinities
matter (temperature extrema), where `PFloat` is used.  Machine reads
that the program lets fail (cpu / memory / disk queries) are embedded
as `Except Unit ℚ`.
-/

namespace VenvMonitor

/-- A Python float as it occurs in the temperature pipeline: NaN,
`float('-inf')`, `float('inf')`, or a finite value (idealized as `ℚ`). -/
inductive PFloat where
  | nan
  | ninf
  | pinf
  | val (q : ℚ)
deriving DecidableEq

/-- IEEE-754 ordered comparison `a < b` on Python floats: any comparison
with NaN is `False`; otherwise the usual order with `-inf` at the bottom
and `inf` at the top.  `temp > self.max_temp` in the source is
`PFloat.lt max_temp temp` here. -/
def PFloat.lt : PFloat → PFloat → Bool
  | .nan, _ => false
  | _, .nan => false
  | .ninf, .ninf => false
  | .ninf, _ => true
  | _, .ninf => false
  | .pinf, _ => false
  | .val _, .pinf => true
  | .val a, .val b => decide (a < b)

/-- Reflexive closure of `PFloat.lt`, used to state monotonicity. -/
def PFloat.le (a b : PFloat) : Prop := a = b ∨ PFloat.lt a b = true

/-- The sensor registry returned by `psutil.sensors_temperatures()`:
a dict (insertion-ordered) from sensor name to the list of readings,
each reading abstracted to its `current` field in °C. -/
abbrev Registry := List (String × List ℚ)

/-- Python `temps[k]` / `k in temps`: first entry with the given key. -/
def lookupSensor (temps : Registry) (k : String) : Option (List ℚ) :=
  (temps.find? (fun p => p.1 == k)).map Prod.snd

/-- State of the fallback file `/sys/class/thermal/thermal_zone0/temp`:
missing (`open` raises `FileNotFoundError`), unreadable (`open` raises
`OSError`), or present with some text content. -/
inductive FileContent where
  | absent
  | unreadable
  | text (s : String)

/-- Python `str.strip()` on a character list: drop whitespace from
both ends. -/
def pyStrip (cs : List Char) : List Char :=
  ((cs.dropWhile Char.isWhitespace).reverse.dropWhile Char.isWhitespace).reverse

/-- Value of a digit string, most significant digit first. -/
def digitsVal (cs : List Char) : ℕ :=
  cs.foldl (fun acc c => 10 * acc + (c.toNat - 48)) 0

/-- Models the Python builtin `float(s)` on the inputs this program
feeds it: surrounding whitespace is ignored and a nonnegative integer
literal parses to its value; any other text raises `ValueError`
(`none`).  (The source also calls `.strip()` first, which this
subsumes.) -/
def pyFloat (s : String) : Option ℚ :=
  let t := pyStrip s.data
  if t ≠ [] ∧ t.all Char.isDigit then some ((digitsVal t : ℕ) : ℚ) else none

/-- The registry part shared verbatim by `read_temperature`
(monitor.py lines 45–52) and `GraphMonitor._read_temp`
(monitor_graph.py lines 155–160): if `cpu_thermal` is present with at
least one reading return its first reading; otherwise consult only the
first key in enumeration order; if that entry is empty, no sensor
value is produced and the caller falls through to the file fallback. -/
def sensorResult (temps : Registry) : Option ℚ :=
  match lookupSensor temps "cpu_thermal" with
  | some (t :: _) => some t
  | _ =>
    match temps with
    | (_, t :: _) :: _ => some t
    | _ => none

/-- Exceptions a temperature read can raise. -/
inductive PyErr where
  | valueError
  | osError
deriving DecidableEq

/-- A temperature result: a numeric value in °C or the NaN sentinel
(`float('nan')`, the code's representation of "unavailable"). -/
inductive Temp where
  | val (q : ℚ)
  | nan
deriving DecidableEq

/-- monitor.py `read_temperature` (lines 28–60): sensor registry first;
on no sensor value, read the fallback file and divide by 1000.  Only
`FileNotFoundError` is caught (line 58): an unreadable file propagates
`OSError` and non-numeric content propagates `ValueError` from
`float`. -/
def read_temperature (temps : Registry) (file : FileContent) : Except PyErr Temp :=
  match sensorResult temps with
  | some t => .ok (.val t)
  | none =>
    match file with
    | .absent => .ok .nan
    | .unreadable => .error .osError
    | .text s =>
      match pyFloat s with
      | some q => .ok (.val (q / 1000))
      | none => .error .valueError

/-- monitor_graph.py `GraphMonitor._read_temp` (lines 150–168): same
two-tier strategy, but both tiers are wrapped in `except Exception`
handlers, so every failure degrades to NaN and nothing propagates. -/
def readTempG (temps : Registry) (file : FileContent) : Temp :=
  match sensorResult temps with
  | some t => .val t
  | none =>
    match file with
    | .text s =>
      match pyFloat s with
      | some q => .val (q / 1000)
      | none => .nan
    | _ => .nan

/-- monitor.py line 222 / monitor_graph.py line 104:
`(io.bytes_recv - self.prev_recv) / 1024.0`. -/
def down_speed (prev_recv curr_recv : ℕ) : ℚ :=
  ((curr_recv : ℚ) - (prev_recv : ℚ)) / 1024

/-- monitor.py line 223 / monitor_graph.py line 105:
`(io.bytes_sent - self.prev_sent) / 1024.0`. -/
def up_speed (prev_sent curr_sent : ℕ) : ℚ :=
  ((curr_sent : ℚ) - (prev_sent : ℚ)) / 1024

/-- monitor_graph.py lines 118–120: after the tick's append, each data
list pops its oldest element when it exceeds `max_points`. -/
def trimOnce {α : Type*} (max_points : ℕ) (l : List α) : List α :=
  if max_points < l.length then l.tail else l

/-- One rolling-window push as the tick performs it on each data list:
append the new value, then trim (lines 99–111 append, 117–120 trim). -/
def pushTrim {α : Type*} (max_points : ℕ) (l : List α) (v : α) : List α :=
  trimOnce max_points (l ++ [v])

/-- Window contents after pushing a whole sequence into an initially
empty history list. -/
def windowOf {α : Type*} (max_points : ℕ) (vs : List α) : List α :=
  vs.foldl (pushTrim max_points) []

end VenvMonitor

namespace VenvMonitor

/-- One push on a history list at or below capacity is a drop from the
appended list: nothing is dropped below capacity, exactly the oldest
element is dropped at capacity. -/
lemma pushTrim_eq_drop {α : Type*} (c : ℕ) (l : List α) (v : α) (hl : l.length ≤ c) :
    pushTrim c l v = (l ++ [v]).drop (l.length + 1 - c) := by
  unfold pushTrim trimOnce
  rcases Nat.lt_or_ge l.length c with h | h
  · rw [if_neg (by simp only [List.length_append, List.length_cons, List.length_nil]; omega),
      Nat.sub_eq_zero_of_le (by omega), List.drop_zero]
  · have hc : l.length = c := le_antisymm hl h
    rw [if_pos (by simp only [List.length_append, List.length_cons, List.length_nil]; omega),
      show l.length + 1 - c = 1 by omega, List.drop_one]

lemma foldl_pushTrim_eq_drop {α : Type*} (c : ℕ) (vs : List α) :
    ∀ l : List α, l.length ≤ c →
      List.foldl (pushTrim c) l vs = (l ++ vs).drop (l.length + vs.length - c) := by
  induction vs with
  | nil =>
    intro l hl
    simp [Nat.sub_eq_zero_of_le hl]
  | cons v vs ih =>
    intro l hl
    have hstep := pushTrim_eq_drop c l v hl
    have hlen : (pushTrim c l v).length ≤ c := by
      rw [hstep]
      simp only [List.length_drop, List.length_append, List.length_cons, List.length_nil]
      omega
    rw [List.foldl_cons, ih _ hlen, hstep]
    rw [List.length_drop,
      ← List.drop_append_of_le_length
        (by simp only [List.length_append, List.length_cons, List.length_nil]; omega)]
    rw [List.drop_drop, List.append_assoc, List.singleton_append]
    congr 1
    simp only [List.length_append, List.length_cons, List.length_nil]
    omega

/-- Window contents after pushing `vs` into an empty history: the most
recent `c` values. -/
lemma windowOf_eq_drop {α : Type*} (c : ℕ) (vs : List α) :
    windowOf c vs = vs.drop (vs.length - c) := by
  have h := foldl_pushTrim_eq_drop c vs [] (by simp)
  simpa [windowOf] using h

lemma windowOf_length {α : Type*} (c : ℕ) (vs : List α) :
    (windowOf c vs).length = min vs.length c := by
  rw [windowOf_eq_drop, List.length_drop]
  omega

/-- The running temperature extrema, monitor_graph.py lines 49–50. -/
structure Extrema where
  max_temp : PFloat
  min_temp : PFloat
deriving DecidableEq

/-- Initial extrema: `float('-inf')` and `float('inf')`
(monitor_graph.py lines 49–50). -/
def Extrema.init : Extrema := ⟨.ninf, .pinf⟩

/-- monitor_graph.py lines 113–116:
`if temp > self.max_temp: self.max_temp = temp` and
`if temp < self.min_temp: self.min_temp = temp`, with Python float
comparison semantics (`a > b` is `b < a`). -/
def Extrema.observe (e : Extrema) (t : PFloat) : Extrema :=
  { max_temp := if PFloat.lt e.max_temp t then t else e.max_temp
    min_temp := if PFloat.lt t e.min_temp then t else e.min_temp }

/-- Extrema after a whole sequence of ticks' temperature readings. -/
def observeAll (ts : List PFloat) : Extrema :=
  ts.foldl Extrema.observe Extrema.init

lemma PFloat.lt_nan (a : PFloat) : PFloat.lt a .nan = false := by
  cases a <;> rfl

lemma PFloat.nan_lt (a : PFloat) : PFloat.lt .nan a = false := by
  cases a <;> rfl

lemma PFloat.le_refl (a : PFloat) : PFloat.le a a := Or.inl rfl

lemma PFloat.lt_trans_lt {a b c : PFloat}
    (hab : PFloat.lt a b = true) (hbc : PFloat.lt b c = true) :
    PFloat.lt a c = true := by
  cases a <;> cases b <;> cases c <;> simp_all [PFloat.lt]
  linarith

lemma PFloat.lt_of_lt_of_le {a b c : PFloat}
    (h1 : PFloat.lt a b = true) (h2 : PFloat.le b c) : PFloat.lt a c = true := by
  rcases h2 with h2 | h2
  · exact h2 ▸ h1
  · exact PFloat.lt_trans_lt h1 h2

lemma PFloat.lt_of_le_of_lt {a b c : PFloat}
    (h1 : PFloat.le a b) (h2 : PFloat.lt b c = true) : PFloat.lt a c = true := by
  rcases h1 with h1 | h1
  · exact h1 ▸ h2
  · exact PFloat.lt_trans_lt h1 h2

/-- A NaN reading never changes the stored extrema: both guard
comparisons are `False`. -/
lemma Extrema.observe_nan (e : Extrema) : e.observe .nan = e := by
  simp [Extrema.observe, PFloat.lt_nan, PFloat.nan_lt]

/-- Each observation can only move `max_temp` upward. -/
lemma Extrema.le_max_observe (e : Extrema) (t : PFloat) :
    PFloat.le e.max_temp (e.observe t).max_temp := by
  unfold Extrema.observe
  by_cases h : PFloat.lt e.max_temp t
  · simp only [h, if_true]
    exact Or.inr h
  · simp only [h, if_false]
    exact Or.inl rfl

/-- Each observation can only move `min_temp` downward. -/
lemma Extrema.observe_min_le (e : Extrema) (t : PFloat) :
    PFloat.le (e.observe t).min_temp e.min_temp := by
  unfold Extrema.observe
  by_cases h : PFloat.lt t e.min_temp
  · simp only [h, if_true]
    exact Or.inr h
  · simp only [h, if_false]
    exact Or.inl rfl

/-- Once the extrema are ordered (`min_temp ≤ max_temp`), any further
observation keeps them ordered. -/
lemma Extrema.observe_min_le_max {e : Extrema}
    (h : PFloat.le e.min_temp e.max_temp) (t : PFloat) :
    PFloat.le (e.observe t).min_temp (e.observe t).max_temp := by
  unfold Extrema.observe
  by_cases h1 : PFloat.lt e.max_temp t <;> by_cases h2 : PFloat.lt t e.min_temp <;>
    simp only [h1, h2, if_true, if_false]
  · exact PFloat.le_refl t
  · exact Or.inr (PFloat.lt_of_le_of_lt h h1)
  · exact Or.inr (PFloat.lt_of_lt_of_le h2 h)
  · exact h

/-- The state invariant the tracker maintains: either the extrema are
ordered, or nothing has changed them yet. -/
def ExtremaOk (e : Extrema) : Prop :=
  PFloat.le e.min_temp e.max_temp ∨ e = Extrema.init

/-- A non-NaN observation from any `ExtremaOk` state leaves the extrema
ordered. -/
lemma Extrema.observe_valid_le {e : Extrema} (hQ : ExtremaOk e) {t : PFloat}
    (ht : t ≠ .nan) : PFloat.le (e.observe t).min_temp (e.observe t).max_temp := by
  rcases hQ with h | h
  · exact Extrema.observe_min_le_max h t
  · subst h
    cases t with
    | nan => exact absurd rfl ht
    | ninf => exact PFloat.le_refl _
    | pinf => exact PFloat.le_refl _
    | val q => exact PFloat.le_refl _

lemma ExtremaOk.observe {e : Extrema} (hQ : ExtremaOk e) (t : PFloat) :
    ExtremaOk (e.observe t) := by
  rcases hQ with h | h
  · exact Or.inl (Extrema.observe_min_le_max h t)
  · cases t with
    | nan => rw [h, Extrema.observe_nan]; exact Or.inr rfl
    | ninf => exact Or.inl (Extrema.observe_valid_le (Or.inr h) (by simp))
    | pinf => exact Or.inl (Extrema.observe_valid_le (Or.inr h) (by simp))
    | val q => exact Or.inl (Extrema.observe_valid_le (Or.inr h) (by simp))

lemma ExtremaOk.foldl {e : Extrema} (hQ : ExtremaOk e) (ts : List PFloat) :
    ExtremaOk (ts.foldl Extrema.observe e) := by
  induction ts generalizing e with
  | nil => exact hQ
  | cons t ts ih => exact ih (hQ.observe t)

/-- After any observation sequence containing at least one non-NaN
reading, starting from an `ExtremaOk` state, the extrema are ordered. -/
lemma foldl_observe_min_le_max (ts : List PFloat) :
    ∀ e : Extrema, ExtremaOk e →
      ((∃ t ∈ ts, t ≠ PFloat.nan) ∨ PFloat.le e.min_temp e.max_temp) →
      PFloat.le (ts.foldl Extrema.observe e).min_temp
        (ts.foldl Extrema.observe e).max_temp := by
  induction ts with
  | nil =>
    intro e _ hex
    rcases hex with ⟨t, ht, _⟩ | h
    · exact absurd ht (List.not_mem_nil t)
    · exact h
  | cons t ts ih =>
    intro e hQ hex
    rw [List.foldl_cons]
    rcases hex with ⟨u, hu, hune⟩ | h
    · rcases List.mem_cons.mp hu with rfl | hu
      · exact ih _ (hQ.observe u) (Or.inr (Extrema.observe_valid_le hQ hune))
      · exact ih _ (hQ.observe t) (Or.inl ⟨u, hu, hune⟩)
    · exact ih _ (hQ.observe t) (Or.inr (Extrema.observe_min_le_max h t))

/-- View of a temperature result as the Python float it is stored as. -/
def Temp.toPFloat : Temp → PFloat
  | .val q => .val q
  | .nan => .nan

/-- The OS answers one tick consumes.  The reads whose failure the
error-handling claims exercise (cpu / memory / disk percent queries)
are `Except Unit ℚ`: `.error ()` models the psutil call raising.  The
byte counters and the temperature sources are totalized, as the
temperature path catches internally and the counter path's failure is
the out-of-scope fatal-init case. -/
structure Readings where
  cpu : Except Unit ℚ
  mem : Except Unit ℚ
  disk : Except Unit ℚ
  recv : ℕ
  sent : ℕ
  temps : Registry
  file : FileContent

/-- Mutable state of `GraphMonitor` relevant to sampling
(monitor_graph.py lines 37–50), plus a count of samples published to
the display (one per completed `canvas.draw()`). -/
structure GState where
  max_points : ℕ
  cpu_data : List ℚ
  mem_data : List ℚ
  disk_data : List ℚ
  net_down_data : List ℚ
  net_up_data : List ℚ
  temp_data : List PFloat
  prev_recv : ℕ
  prev_sent : ℕ
  extrema : Extrema
  published : ℕ

/-- monitor_graph.py `GraphMonitor.update_graphs` (lines 96–148) as a
state transition.  Python mutations performed before an uncaught
exception persist, so each failing read returns the state mutated so
far; the returned `Bool` records whether the tick ran to completion —
i.e. reached `canvas.draw()` (publication) and `self.root.after(1000,
self.update_graphs)` (rescheduling).  The only other statement that can
raise is `max(self.temp_data)` (line 134) on an empty list, mirrored by
the final guard. -/
def update_graphs (st : GState) (r : Readings) : GState × Bool :=
  match r.cpu with
  | .error _ => (st, false)
  | .ok c =>
    let st1 := { st with cpu_data := st.cpu_data ++ [c] }
    match r.mem with
    | .error _ => (st1, false)
    | .ok m =>
      let st2 := { st1 with mem_data := st1.mem_data ++ [m] }
      match r.disk with
      | .error _ => (st2, false)
      | .ok d =>
        let st3 := { st2 with disk_data := st2.disk_data ++ [d] }
        let st4 := { st3 with
          prev_recv := r.recv
          prev_sent := r.sent
          net_down_data := st3.net_down_data ++ [down_speed st3.prev_recv r.recv]
          net_up_data := st3.net_up_data ++ [up_speed st3.prev_sent r.sent] }
        let t := (readTempG r.temps r.file).toPFloat
        let st5 := { st4 with
          temp_data := st4.temp_data ++ [t]
          extrema := st4.extrema.observe t }
        let st6 := { st5 with
          cpu_data := trimOnce st5.max_points st5.cpu_data
          mem_data := trimOnce st5.max_points st5.mem_data
          disk_data := trimOnce st5.max_points st5.disk_data
          net_down_data := trimOnce st5.max_points st5.net_down_data
          net_up_data := trimOnce st5.max_points st5.net_up_data
          temp_data := trimOnce st5.max_points st5.temp_data }
        if st6.temp_data.isEmpty then (st6, false)
        else ({ st6 with published := st6.published + 1 }, true)

/-- The fields `GraphMonitor.__init__` sets before its `update_graphs()`
call: empty histories (lines 41–46), counter baseline (lines 47–48,
two separate `net_io_counters()` calls), extrema at `∓inf`
(lines 49–50), nothing published. -/
def initGState (max_points baseRecv baseSent : ℕ) : GState :=
  { max_points := max_points
    cpu_data := []
    mem_data := []
    disk_data := []
    net_down_data := []
    net_up_data := []
    temp_data := []
    prev_recv := baseRecv
    prev_sent := baseSent
    extrema := Extrema.init
    published := 0 }

/-- `GraphMonitor.__init__` (lines 37–94): initialize the fields, take
the counter baseline, then invoke `self.update_graphs()` synchronously
at line 94 — the whole first sampling cycle runs during construction. -/
def startMonitor (max_points baseRecv baseSent : ℕ) (first : Readings) : GState × Bool :=
  update_graphs (initGState max_points baseRecv baseSent) first

/-- A run of successive ticks (each scheduled via `root.after`). -/
def runTicks (st : GState) (rs : List Readings) : GState :=
  rs.foldl (fun s r => (update_graphs s r).1) st

/-- A synthetic tick whose cpu reading is `v` and whose other sources
are quiescent. -/
def cpuTick (v : ℚ) : Readings :=
  { cpu := .ok v
    mem := .ok 0
    disk := .ok 0
    recv := 0
    sent := 0
    temps := []
    file := .absent }

/-- C1 (counterexample): the claim says a counter reset (`curr < prev`)
yields a speed of 0; at `prev = 1000, curr = 500` the code's speed is
`(500 - 1000)/1024`, which is negative and not 0, for download and
upload alike. -/
theorem rate_clamp_cex :
    (500 : ℕ) < 1000 ∧
    ¬ down_speed 1000 500 = 0 ∧ down_speed 1000 500 < 0 ∧
    ¬ up_speed 1000 500 = 0 ∧ up_speed 1000 500 < 0 := by
  norm_num [down_speed, up_speed]

/-- C1 (amended): when the current cumulative byte counter is strictly
below the previous one, the computed speed (`down_kbps`, and
symmetrically `up_kbps`) is strictly negative — the code applies no
clamp to 0. -/
theorem rate_negative_on_counter_reset (prev curr : ℕ) (h : curr < prev) :
    down_speed prev curr < 0 ∧ up_speed prev curr < 0 := by
  have hq : (curr : ℚ) - (prev : ℚ) < 0 := by
    have hlt : (curr : ℚ) < (prev : ℚ) := by exact_mod_cast h
    linarith
  unfold down_speed up_speed
  exact ⟨div_neg_of_neg_of_pos hq (by norm_num), div_neg_of_neg_of_pos hq (by norm_num)⟩

/-- C1 (witness): the amended theorem at `prev = 1000, curr = 500`. -/
theorem rate_negative_on_counter_reset_witness :
    down_speed 1000 500 < 0 ∧ up_speed 1000 500 < 0 :=
  rate_negative_on_counter_reset 1000 500 (by norm_num)

/-- C10: with `prev.bytes_received = 1000` and `curr.bytes_received =
2024` the computed `down_kbps` is exactly 1, and in general the
per-tick rate is the byte delta divided by 1024. -/
theorem rate_kb_delta :
    down_speed 1000 2024 = 1 ∧
    ∀ prev curr : ℕ, prev ≤ curr →
      (1024 : ℚ) * down_speed prev curr = ((curr - prev : ℕ) : ℚ) ∧
      (1024 : ℚ) * up_speed prev curr = ((curr - prev : ℕ) : ℚ) := by
  constructor
  · norm_num [down_speed]
  · intro prev curr h
    have hc : ((curr - prev : ℕ) : ℚ) = (curr : ℚ) - (prev : ℚ) := by
      push_cast [h]
      ring
    constructor <;> (simp only [down_speed, up_speed]; rw [hc]; field_simp)

/-- C10 (witness): the general delta form at `prev = 1000, curr =
2024`. -/
theorem rate_kb_delta_witness :
    (1024 : ℚ) * down_speed 1000 2024 = ((2024 - 1000 : ℕ) : ℚ) ∧
    (1024 : ℚ) * up_speed 1000 2024 = ((2024 - 1000 : ℕ) : ℚ) :=
  rate_kb_delta.2 1000 2024 (by norm_num)

/-- C2: FIFO rolling window — for capacity `c > 0` and more pushes
than capacity, the window holds exactly the last `c` values in push
order; in particular capacity 3 with pushes `[10,20,30,40]` leaves
`[20,30,40]`, both for a bare history list and end-to-end through four
ticks of the monitor started with capacity 3. -/
theorem window_fifo :
    (∀ (c : ℕ) (vs : List ℚ), 0 < c → c < vs.length →
        windowOf c vs = vs.drop (vs.length - c)) ∧
    windowOf 3 [(10 : ℚ), 20, 30, 40] = [20, 30, 40] ∧
    (runTicks (initGState 3 0 0) ([(10 : ℚ), 20, 30, 40].map cpuTick)).cpu_data
      = [20, 30, 40] :=
  ⟨fun c vs _ _ => windowOf_eq_drop c vs, by decide, by decide⟩

/-- C2 (witness): the general FIFO statement at capacity 3 and pushes
`[10,20,30,40]`. -/
theorem window_fifo_witness :
    windowOf 3 [(10 : ℚ), 20, 30, 40]
      = [(10 : ℚ), 20, 30, 40].drop ([(10 : ℚ), 20, 30, 40].length - 3) :=
  window_fifo.1 3 [(10 : ℚ), 20, 30, 40] (by norm_num) (by norm_num)

/-- C3: for capacity `c > 0`, after each completed push (append
followed by the trim of lines 117–120) the window length is at most
`c`, and once at least `c` values have been pushed it is exactly
`c`. -/
theorem window_capacity (c : ℕ) (vs : List ℚ) (_h : 0 < c) :
    (∀ n, (windowOf c (vs.take n)).length ≤ c) ∧
    (∀ n, c ≤ n → n ≤ vs.length → (windowOf c (vs.take n)).length = c) := by
  constructor
  · intro n
    rw [windowOf_length]
    omega
  · intro n h1 h2
    rw [windowOf_length, List.length_take]
    omega

/-- C3 (witness): the capacity bound at capacity 3 after 4 pushes. -/
theorem window_capacity_witness :
    (windowOf 3 ([(10 : ℚ), 20, 30, 40].take 4)).length = 3 :=
  (window_capacity 3 [(10 : ℚ), 20, 30, 40] (by norm_num)).2 4 (by norm_num) (by norm_num)

/-- C4: a NaN reading leaves the tracked extrema unchanged; across any
observation sequence the tracked max is non-decreasing and the tracked
min is non-increasing at every step; and from the first non-NaN
observation onward, min ≤ max. -/
theorem extrema_invariants (ts : List PFloat) :
    (∀ e : Extrema, e.observe .nan = e) ∧
    (∀ n : ℕ,
      PFloat.le (observeAll (ts.take n)).max_temp
        (observeAll (ts.take (n + 1))).max_temp ∧
      PFloat.le (observeAll (ts.take (n + 1))).min_temp
        (observeAll (ts.take n)).min_temp) ∧
    (∀ n : ℕ, (∃ t ∈ ts.take n, t ≠ PFloat.nan) →
      PFloat.le (observeAll (ts.take n)).min_temp
        (observeAll (ts.take n)).max_temp) := by
  refine ⟨Extrema.observe_nan, fun n => ?_, fun n hex => ?_⟩
  · have hts : ts.take (n + 1) = ts.take n ++ (ts[n]?).toList := List.take_succ
    rw [observeAll, observeAll, hts, List.foldl_append]
    cases h : ts[n]? with
    | none => exact ⟨PFloat.le_refl _, PFloat.le_refl _⟩
    | some t => exact ⟨Extrema.le_max_observe _ t, Extrema.observe_min_le _ t⟩
  · exact foldl_observe_min_le_max (ts.take n) Extrema.init (Or.inr rfl) (Or.inl hex)

/-- C4 (witness): min ≤ max after the single valid observation 42. -/
theorem extrema_invariants_witness :
    PFloat.le (observeAll ([PFloat.val 42].take 1)).min_temp
      (observeAll ([PFloat.val 42].take 1)).max_temp :=
  (extrema_invariants [PFloat.val 42]).2.2 1 ⟨PFloat.val 42, by decide, by decide⟩

/-- C7: with an empty sensor registry, fallback file content
`"45000\n"` yields 45 °C (millidegrees divided by 1000) and an absent
fallback file yields the NaN sentinel, in both implementations. -/
theorem temp_fallback_values :
    read_temperature [] (.text "45000\n") = .ok (.val 45) ∧
    readTempG [] (.text "45000\n") = .val 45 ∧
    read_temperature [] .absent = .ok .nan ∧
    readTempG [] .absent = .nan := by
  have hp : pyFloat "45000\n" = some 45000 := by decide
  have h45 : (45000 : ℚ) / 1000 = 45 := by norm_num
  refine ⟨?_, ?_, rfl, rfl⟩ <;>
    simp [read_temperature, readTempG, sensorResult, lookupSensor, hp, h45]

/-- C6 (counterexample): with an empty registry, `read_temperature`
(monitor.py) raises when the fallback file holds non-numeric text
(`ValueError` from `float`) or is unreadable (`OSError` from `open`) —
its handler catches only `FileNotFoundError`. -/
theorem temp_read_raises_cex :
    read_temperature [] (.text "abc") = .error .valueError ∧
    read_temperature [] .unreadable = .error .osError :=
  ⟨rfl, rfl⟩

/-- C6 (amended): `GraphMonitor._read_temp` (monitor_graph.py) never
raises — every registry/file state yields a numeric value or the NaN
sentinel — and a missing source yields NaN, never zero; but
`read_temperature` (monitor.py) raises exactly when the registry
yields no reading and the fallback file is unreadable or
non-numeric (an absent file is still degraded to NaN). -/
theorem temp_read_error_policy (temps : Registry) (file : FileContent) :
    ((∃ q : ℚ, readTempG temps file = .val q) ∨ readTempG temps file = .nan) ∧
    (sensorResult temps = none →
      readTempG temps .absent = .nan ∧
      readTempG temps .unreadable = .nan ∧
      read_temperature temps .absent = .ok .nan) ∧
    ((∃ e, read_temperature temps file = .error e) ↔
      sensorResult temps = none ∧
        (file = .unreadable ∨ ∃ s, file = .text s ∧ pyFloat s = none)) := by
  refine ⟨?_, fun hs => ?_, ?_⟩
  · cases h : readTempG temps file with
    | val q => exact Or.inl ⟨q, rfl⟩
    | nan => exact Or.inr rfl
  · simp [readTempG, read_temperature, hs]
  · unfold read_temperature
    cases hs : sensorResult temps with
    | some t => simp
    | none =>
      cases file with
      | absent => simp
      | unreadable => simp
      | text s =>
        cases hp : pyFloat s with
        | some q => simp [hp]
        | none => simp [hp]

/-- C6 (witness): the error characterization instantiated at an empty
registry and a non-numeric fallback file. -/
theorem temp_read_error_policy_witness :
    ∃ e, read_temperature [] (.text "abc") = Except.error e :=
  (temp_read_error_policy [] (.text "abc")).2.2.mpr ⟨rfl, Or.inr ⟨"abc", rfl, rfl⟩⟩

/-- C9 (counterexample): registry `{"a": [], "b": [50]}` (no
`cpu_thermal`): sensor "b" has a reading, yet both readers fall back
past the registry — with an absent fallback file they return the NaN
sentinel, not a sensor value. -/
theorem first_sensor_empty_cex :
    read_temperature [("a", []), ("b", [50])] .absent = .ok .nan ∧
    readTempG [("a", []), ("b", [50])] .absent = .nan ∧
    ¬ ∃ q : ℚ, read_temperature [("a", []), ("b", [50])] .absent = .ok (.val q) := by
  have h : read_temperature [("a", ([] : List ℚ)), ("b", [50])] .absent = .ok .nan := rfl
  refine ⟨h, rfl, ?_⟩
  rintro ⟨q, hq⟩
  rw [h] at hq
  simp at hq

/-- C9 (amended): when `cpu_thermal` is absent from the registry or
present with an empty reading list (the code's
`'cpu_thermal' in temps and temps['cpu_thermal']` guard fails either
way), only the first sensor in enumeration order is consulted: if it
has a reading, its first reading is returned; if its reading list is
empty, both readers behave exactly as for an empty registry (file
fallback), regardless of later sensors' readings. -/
theorem temp_first_sensor_only (file : FileContent) :
    (∀ (k : String) (v : ℚ) (vs : List ℚ) (rest : Registry),
        (lookupSensor ((k, v :: vs) :: rest) "cpu_thermal" = none ∨
          lookupSensor ((k, v :: vs) :: rest) "cpu_thermal" = some []) →
        read_temperature ((k, v :: vs) :: rest) file = .ok (.val v) ∧
        readTempG ((k, v :: vs) :: rest) file = .val v) ∧
    (∀ (k : String) (rest : Registry),
        (lookupSensor ((k, ([] : List ℚ)) :: rest) "cpu_thermal" = none ∨
          lookupSensor ((k, ([] : List ℚ)) :: rest) "cpu_thermal" = some []) →
        read_temperature ((k, []) :: rest) file = read_temperature [] file ∧
        readTempG ((k, []) :: rest) file = readTempG [] file) := by
  constructor
  · intro k v vs rest h
    have hs : sensorResult ((k, v :: vs) :: rest) = some v := by
      unfold sensorResult
      rcases h with h | h <;> rw [h]
    constructor <;> simp [read_temperature, readTempG, hs]
  · intro k rest h
    have hs : sensorResult ((k, ([] : List ℚ)) :: rest) = none := by
      unfold sensorResult
      rcases h with h | h <;> rw [h]
    have hs0 : sensorResult ([] : Registry) = none := rfl
    constructor <;> simp [read_temperature, readTempG, hs, hs0]

/-- C9 (witness): registry `{"cpu_thermal": [], "b": [50]}` —
`cpu_thermal` present but empty as the first key, a later sensor with
a reading — behaves exactly like the empty registry with an absent
fallback file. -/
theorem temp_first_sensor_only_witness :
    read_temperature [("cpu_thermal", ([] : List ℚ)), ("b", [50])] .absent
        = read_temperature [] .absent ∧
    readTempG [("cpu_thermal", ([] : List ℚ)), ("b", [50])] .absent
        = readTempG [] .absent :=
  (temp_first_sensor_only .absent).2 "cpu_thermal" [("b", [50])] (Or.inr rfl)

/-- A running state two ticks after start: capacity 3, two samples in
every window, two samples published. -/
def mem_fail_state : GState :=
  { max_points := 3
    cpu_data := [1, 2]
    mem_data := [5, 6]
    disk_data := [7, 8]
    net_down_data := [0, 0]
    net_up_data := [0, 0]
    temp_data := [.val 40, .val 41]
    prev_recv := 100
    prev_sent := 100
    extrema := ⟨.val 41, .val 40⟩
    published := 2 }

/-- A tick whose memory read raises while everything else succeeds. -/
def mem_fail_readings : Readings :=
  { cpu := .ok 3
    mem := .error ()
    disk := .ok 9
    recv := 1124
    sent := 100
    temps := []
    file := .absent }

/-- C5 (counterexample): on a tick whose memory read raises, the tick
does not complete (`False` — `root.after` is never reached, so the
periodic loop stops), no sample is published, and disk/net/mem windows
are left untouched — contradicting the claim that the remaining
metrics are still updated, a Sample is produced and the scheduler
stays Running. -/
theorem tick_mem_failure_cex :
    (update_graphs mem_fail_state mem_fail_readings).2 = false ∧
    (update_graphs mem_fail_state mem_fail_readings).1.mem_data
      = mem_fail_state.mem_data ∧
    (update_graphs mem_fail_state mem_fail_readings).1.disk_data
      = mem_fail_state.disk_data ∧
    (update_graphs mem_fail_state mem_fail_readings).1.net_down_data
      = mem_fail_state.net_down_data ∧
    (update_graphs mem_fail_state mem_fail_readings).1.published
      = mem_fail_state.published :=
  ⟨rfl, rfl, rfl, rfl, rfl⟩

/-- C5 (amended): a tick whose memory read raises aborts mid-tick: the
cpu value (appended before the failing read) is kept, every other
field of the state is unchanged — no trim, no sample, no extrema
update — and the tick does not complete, so no further tick is
scheduled. -/
theorem tick_mem_failure_aborts (st : GState) (r : Readings) (c : ℚ)
    (hc : r.cpu = Except.ok c) (hm : r.mem = Except.error ()) :
    update_graphs st r = ({ st with cpu_data := st.cpu_data ++ [c] }, false) := by
  obtain ⟨cpu, mem, disk, recv, sent, temps, file⟩ := r
  dsimp only at hc hm
  subst hc
  subst hm
  rfl

/-- C5 (witness): the aborting tick at the concrete running state. -/
theorem tick_mem_failure_aborts_witness :
    update_graphs mem_fail_state mem_fail_readings
      = ({ mem_fail_state with
            cpu_data := mem_fail_state.cpu_data ++ [3] }, false) :=
  tick_mem_failure_aborts mem_fail_state mem_fail_readings 3 rfl rfl

/-- The readings consumed by the `update_graphs()` call that
`__init__` makes synchronously. -/
def start_first_readings : Readings :=
  { cpu := .ok 10
    mem := .ok 20
    disk := .ok 30
    recv := 2048
    sent := 1024
    temps := []
    file := .absent }

/-- C8 (counterexample): starting the monitor with default capacity 60
publishes a sample already during start itself (the constructor calls
`update_graphs()` synchronously at line 94): the published count right
after start is 1, not 0. -/
theorem start_publishes_cex :
    (startMonitor 60 0 0 start_first_readings).1.published = 1 ∧
    (startMonitor 60 0 0 start_first_readings).2 = true :=
  ⟨rfl, rfl⟩

/-- C8 (amended): start takes the initial counter snapshot as baseline
and then immediately runs one full sampling cycle synchronously during
start: exactly one Sample is published during start, the rates of that
first sample are computed against the baseline, and the stored
snapshot is replaced by the tick's counters. -/
theorem start_publishes_immediately (mp b0 s0 : ℕ) (r : Readings) (c m d : ℚ)
    (hmp : 0 < mp) (hc : r.cpu = Except.ok c) (hm : r.mem = Except.ok m)
    (hd : r.disk = Except.ok d) :
    (startMonitor mp b0 s0 r).1.published = 1 ∧
    (startMonitor mp b0 s0 r).2 = true ∧
    (startMonitor mp b0 s0 r).1.net_down_data = [down_speed b0 r.recv] ∧
    (startMonitor mp b0 s0 r).1.net_up_data = [up_speed s0 r.sent] ∧
    (startMonitor mp b0 s0 r).1.cpu_data = [c] ∧
    (startMonitor mp b0 s0 r).1.prev_recv = r.recv := by
  obtain ⟨cpu, mem, disk, recv, sent, temps, file⟩ := r
  dsimp only at hc hm hd ⊢
  subst hc
  subst hm
  subst hd
  have h1 : ¬ (mp < 1) := by omega
  simp [startMonitor, initGState, update_graphs, trimOnce, h1]

/-- C8 (witness): the start transition at capacity 60, baseline (0,0),
and the concrete first readings. -/
theorem start_publishes_immediately_witness :
    (startMonitor 60 0 0 start_first_readings).1.published = 1 ∧
    (startMonitor 60 0 0 start_first_readings).2 = true ∧
    (startMonitor 60 0 0 start_first_readings).1.net_down_data
      = [down_speed 0 start_first_readings.recv] ∧
    (startMonitor 60 0 0 start_first_readings).1.net_up_data
      = [up_speed 0 start_first_readings.sent] ∧
    (startMonitor 60 0 0 start_first_readings).1.cpu_data = [10] ∧
    (startMonitor 60 0 0 start_first_readings).1.prev_recv
      = start_first_readings.recv :=
  start_publishes_immediately 60 0 0 start_first_readings 10 20 30
    (by norm_num) rfl rfl rfl

end VenvMonitor

